import Mathlib

/-
Verification development for the Collectors-App repository.

The repository is a React Native (Expo) client for a collectors inventory
backend.  The client screens under frontend/app are the code present in the
sources; the backend (backend/server.py) is referenced by the test log but is
not present, so backend behaviour is modelled from the specification where a
claim depends on it (each such definition is marked "Modelled from the spec").

All string handling is done on lists of characters; lowercasing models
String.prototype.toLowerCase on the ASCII range.
-/

namespace CollectorsApp

/-! ### Client-side item search (frontend/app/(tabs)/items.tsx, ItemsScreen) -/

/-- An item as the search screen sees it.  The fetched JSON records carry all
item fields; the screen reads name and description.  We keep the barcode field
because the data model has it and the search claims quantify over it. -/
structure SearchItem where
  id : String
  name : String
  description : String
  barcode : String
deriving DecidableEq, Repr

/-- Lowercased character list of a string; models
String.prototype.toLowerCase restricted to the ASCII alphabet. -/
def jsToLower (s : String) : List Char :=
  s.data.map Char.toLower

/-- Models String.prototype.includes: substring containment. -/
def jsIncludes (s sub : List Char) : Bool :=
  decide (sub <:+: s)

/-- The filter predicate of ItemsScreen:
item.name.toLowerCase().includes(searchQuery.toLowerCase()) ||
item.description.toLowerCase().includes(searchQuery.toLowerCase()). -/
def itemMatches (q : String) (it : SearchItem) : Bool :=
  jsIncludes (jsToLower it.name) (jsToLower q) ||
    jsIncludes (jsToLower it.description) (jsToLower q)

/-- The search effect in ItemsScreen: if (searchQuery) is truthy (non-empty)
the item list is filtered by itemMatches, otherwise it is returned whole. -/
def filterItems (q : String) (items : List SearchItem) : List SearchItem :=
  if q = "" then items else items.filter (itemMatches q)

/-- The search result as the specification words it: the query is matched
case-insensitively against name, description AND barcode.  Declared only to be
compared against the implemented filterItems. -/
def searchSpec (q : String) (items : List SearchItem) : List SearchItem :=
  items.filter fun it =>
    jsIncludes (jsToLower it.name) (jsToLower q) ||
      jsIncludes (jsToLower it.description) (jsToLower q) ||
      jsIncludes (jsToLower it.barcode) (jsToLower q)

/-- An item whose only field containing "mario" is the barcode. -/
def barcodeOnlyItem : SearchItem :=
  { id := "i1", name := "Gray Console", description := "boxed", barcode := "mario123" }

/-- Helper: filtering never increases the multiplicity of an element. -/
theorem count_filter_le_self {α : Type} [DecidableEq α] (p : α → Bool)
    (l : List α) (a : α) : (l.filter p).count a ≤ l.count a := by
  induction l with
  | nil => simp
  | cons x xs ih =>
    rw [List.filter_cons]
    by_cases hx : x = a
    · subst hx
      by_cases hp : p x = true <;> simp [List.count_cons, hp] <;> omega
    · by_cases hp : p x = true <;> simp [List.count_cons, hp, hx] <;> omega

/-- C1 counterexample: on an item whose barcode (and no other field) contains
the query, the specified search returns the item but the implemented client
filter returns the empty list — the filter consults only name and
description. -/
theorem filterItems_ignores_barcode :
    searchSpec "mario" [barcodeOnlyItem] = [barcodeOnlyItem] ∧
      filterItems "mario" [barcodeOnlyItem] = [] := by
  decide

/-- C1 (amended): for every non-empty query the implemented search returns
exactly the items for which the query is a case-insensitive substring of the
name or of the description (the barcode is not consulted), each item appearing
in the result at most as often as in the input list. -/
theorem filterItems_characterisation (q : String) (items : List SearchItem)
    (hq : q ≠ "") :
    (∀ it, it ∈ filterItems q items ↔
        it ∈ items ∧
          (jsToLower q <:+: jsToLower it.name ∨
            jsToLower q <:+: jsToLower it.description)) ∧
      (∀ it, (filterItems q items).count it ≤ items.count it) := by
  refine ⟨fun it => ?_, fun it => ?_⟩
  · simp [filterItems, hq, List.mem_filter, itemMatches, jsIncludes]
  · simp only [filterItems, hq, if_neg hq]
    exact count_filter_le_self _ items it

/-- Closed instance of the amended C1 theorem at the query "mario" on the two
items of the specification example. -/
theorem filterItems_characterisation_witness :
    (∀ it, it ∈ filterItems "mario"
        [{ id := "1", name := "Super Mario Bros", description := "", barcode := "" },
         { id := "2", name := "Zelda", description := "", barcode := "" }] ↔
        it ∈ [({ id := "1", name := "Super Mario Bros", description := "", barcode := "" } : SearchItem),
         { id := "2", name := "Zelda", description := "", barcode := "" }] ∧
          (jsToLower "mario" <:+: jsToLower it.name ∨
            jsToLower "mario" <:+: jsToLower it.description)) ∧
      (∀ it, (filterItems "mario"
        [{ id := "1", name := "Super Mario Bros", description := "", barcode := "" },
         { id := "2", name := "Zelda", description := "", barcode := "" }]).count it ≤
        ([({ id := "1", name := "Super Mario Bros", description := "", barcode := "" } : SearchItem),
         { id := "2", name := "Zelda", description := "", barcode := "" }]).count it) :=
  filterItems_characterisation "mario" _ (by decide)

/-- C9: the empty query leaves the item list unchanged — the filter with an
empty query is the identity on the item list. -/
theorem filterItems_empty_query_id (items : List SearchItem) :
    filterItems "" items = items := rfl

/-! ### Add-item form (frontend/app/item/add.tsx, AddItemScreen) -/

/-- One decimal digit run: accumulated value, number of digits read, rest. -/
def readDigitsAux (acc cnt : Nat) : List Char → Nat × Nat × List Char
  | [] => (acc, cnt, [])
  | c :: rest =>
    if c.isDigit then readDigitsAux (acc * 10 + (c.toNat - 48)) (cnt + 1) rest
    else (acc, cnt, c :: rest)

/-- Models JavaScript parseFloat on the decimal grammar
[+-]? digits? (. digits?)? ([eE] [+-]? digits)? after leading whitespace.
Returns none where parseFloat returns NaN, that is when the mantissa holds no
digit.  parseFloat reads the longest numeric prefix and ignores trailing text.
(The literal Infinity, which no price input produces, is not modelled.) -/
def jsParseFloat (s : String) : Option ℚ :=
  let l := s.data.dropWhile fun c => c = ' ' || c = '\t' || c = '\n' || c = '\r'
  let sl : ℚ × List Char :=
    match l with
    | c :: rest => if c = '-' then (-1, rest) else if c = '+' then (1, rest) else (1, l)
    | [] => (1, [])
  let (ip, icnt, l2) := readDigitsAux 0 0 sl.2
  let fl : Nat × Nat × List Char :=
    match l2 with
    | c :: rest => if c = '.' then readDigitsAux 0 0 rest else (0, 0, l2)
    | [] => (0, 0, [])
  if icnt = 0 && fl.2.1 = 0 then none
  else
    let mant : ℚ := (ip : ℚ) + (fl.1 : ℚ) / (10 : ℚ) ^ fl.2.1
    let expv : Int :=
      match fl.2.2 with
      | c :: rest =>
        if c = 'e' || c = 'E' then
          let er : Int × List Char :=
            match rest with
            | d :: r => if d = '-' then (-1, r) else if d = '+' then (1, r) else (1, rest)
            | [] => (1, [])
          let (ev, ecnt, _) := readDigitsAux 0 0 er.2
          if ecnt = 0 then 0 else er.1 * ev
        else 0
      | [] => 0
    some (sl.1 * mant * (10 : ℚ) ^ expv)

/-- Models `v || 0` applied to a parse result: NaN (none) and zero are the
falsy numbers. -/
def jsOrZero : Option ℚ → ℚ
  | none => 0
  | some x => if x = 0 then 0 else x

/-- The JSON body posted to POST /items by handleCreate. -/
structure ItemPayload where
  collection_id : Option String
  name : String
  description : String
  images : List String
  barcode : String
  purchase_price : ℚ
  current_value : ℚ
  condition : String
  is_wishlist : Bool
deriving DecidableEq, Repr

/-- The state of the add-item form (the useState hooks of AddItemScreen). -/
structure AddItemForm where
  selectedCollection : String
  name : String
  description : String
  purchasePrice : String
  currentValue : String
  condition : String
  isWishlist : Bool
  images : List String
  barcode : String
deriving DecidableEq, Repr

/-- The initial form state: every text field starts empty, the condition
starts at "good", the wishlist flag at false and the image list empty.  The
selected collection defaults to the empty string when the route carries no
collectionId parameter. -/
def initAddItemForm : AddItemForm :=
  { selectedCollection := "", name := "", description := "", purchasePrice := ""
    currentValue := "", condition := "good", isWishlist := false, images := []
    barcode := "" }

/-- handleCreate of AddItemScreen: requires a name (alert and no request when
it is missing); otherwise posts the payload with parseFloat(price) || 0 for
the two numeric fields and selectedCollection || null for the collection. -/
def handleCreateItem (f : AddItemForm) : Except String ItemPayload :=
  if f.name = "" then .error "Please enter item name"
  else .ok
    { collection_id :=
        if f.selectedCollection = "" then none else some f.selectedCollection
      name := f.name
      description := f.description
      images := f.images
      barcode := f.barcode
      purchase_price := jsOrZero (jsParseFloat f.purchasePrice)
      current_value := jsOrZero (jsParseFloat f.currentValue)
      condition := f.condition
      is_wishlist := f.isWishlist }

/-- removeImage of AddItemScreen: images.filter((_, i) => i !== index). -/
def removeAtIdx (l : List String) (idx : Nat) : List String :=
  (l.enum.filter fun p => p.1 != idx).map Prod.snd

/-- One user interaction with the add-item form. -/
inductive FormOp
  | setName (s : String)
  | setDescription (s : String)
  | setPurchasePrice (s : String)
  | setCurrentValue (s : String)
  | setCondition (c : String)
  | setBarcode (s : String)
  | setCollection (s : String)
  | toggleWishlist
  | addPhoto (result : Option String)
  | removePhoto (i : Nat)

/-- Applying one interaction.  addPhoto covers both the camera and the gallery
picker; its argument is the base64 payload of the picked asset, or none when
the picker was cancelled or returned no base64 data.  Both add buttons are
rendered only while images.length < 5, so that bound is part of the
operation. -/
def applyFormOp (f : AddItemForm) : FormOp → AddItemForm
  | .setName s => { f with name := s }
  | .setDescription s => { f with description := s }
  | .setPurchasePrice s => { f with purchasePrice := s }
  | .setCurrentValue s => { f with currentValue := s }
  | .setCondition c => { f with condition := c }
  | .setBarcode s => { f with barcode := s }
  | .setCollection s => { f with selectedCollection := s }
  | .toggleWishlist => { f with isWishlist := !f.isWishlist }
  | .addPhoto r =>
    if f.images.length < 5 then
      match r with
      | some b64 =>
        { f with images := f.images ++ ["data:image/jpeg;base64," ++ b64] }
      | none => f
    else f
  | .removePhoto i => { f with images := removeAtIdx f.images i }

/-- A whole interaction sequence, left to right. -/
def applyFormOps (f : AddItemForm) (ops : List FormOp) : AddItemForm :=
  ops.foldl applyFormOp f

/-- A form whose price inputs parse to negative numbers. -/
def negPriceForm : AddItemForm :=
  { initAddItemForm with name := "Rare Coin", purchasePrice := "-5", currentValue := "-0.25" }

/-- C4 counterexample: the create handler performs no sign check, so the
price input "-5" produces a created item with purchase_price = -5 < 0 (and
current_value = -1/4 < 0): the non-negativity invariant is not enforced for
inputs that parse to a negative number. -/
theorem create_negative_price_counterexample :
    handleCreateItem negPriceForm = .ok
      { collection_id := none, name := "Rare Coin", description := "", images := []
        barcode := "", purchase_price := -5, current_value := -(1/4)
        condition := "good", is_wishlist := false } ∧
      (-5 : ℚ) < 0 ∧ (-(1/4) : ℚ) < 0 := by
  refine ⟨?_, by norm_num, by norm_num⟩
  simp +decide [handleCreateItem, negPriceForm, initAddItemForm, jsOrZero,
    jsParseFloat, readDigitsAux]
  norm_num

/-- C4 (amended): the prices of a created item are non-negative whenever the
corresponding input strings do not parse to a negative number — in particular
absent or unparsable inputs default to 0; an input parsing to a negative
number is stored as that negative value, so create does not enforce the
invariant in that case. -/
theorem create_price_nonneg_of_nonneg_parse (f : AddItemForm) (p : ItemPayload)
    (hp : handleCreateItem f = .ok p) :
    ((∀ x, jsParseFloat f.purchasePrice = some x → 0 ≤ x) → 0 ≤ p.purchase_price) ∧
      ((∀ x, jsParseFloat f.currentValue = some x → 0 ≤ x) → 0 ≤ p.current_value) := by
  unfold handleCreateItem at hp
  split at hp
  · cases hp
  · cases hp
    constructor
    · intro h
      cases hpp : jsParseFloat f.purchasePrice with
      | none => simp [jsOrZero, hpp]
      | some x =>
        have hx := h x hpp
        simp only [jsOrZero, hpp]
        split <;> [exact le_refl 0; exact hx]
    · intro h
      cases hcv : jsParseFloat f.currentValue with
      | none => simp [jsOrZero, hcv]
      | some x =>
        have hx := h x hcv
        simp only [jsOrZero, hcv]
        split <;> [exact le_refl 0; exact hx]

/-- The payload produced by a form named "Coin" with all other inputs left at
their initial values. -/
def coinPayload : ItemPayload :=
  { collection_id := none, name := "Coin", description := "", images := []
    barcode := "", purchase_price := 0, current_value := 0
    condition := "good", is_wishlist := false }

/-- Closed instance of the amended C4 theorem: a form with empty price inputs
yields a created item with non-negative prices. -/
theorem create_price_nonneg_of_nonneg_parse_witness :
    (0 : ℚ) ≤ coinPayload.purchase_price ∧ (0 : ℚ) ≤ coinPayload.current_value := by
  have h := create_price_nonneg_of_nonneg_parse
    { initAddItemForm with name := "Coin" } coinPayload
    (by simp +decide [handleCreateItem, initAddItemForm, coinPayload, jsOrZero,
      jsParseFloat, readDigitsAux])
  refine ⟨h.1 ?_, h.2 ?_⟩ <;> intro x hx <;>
    simp +decide [initAddItemForm, jsParseFloat, readDigitsAux] at hx

/-- Helper: an interaction that is not a setCondition leaves the condition
field unchanged. -/
theorem condition_unchanged_of_ops (ops : List FormOp) :
    ∀ f : AddItemForm, (∀ c, FormOp.setCondition c ∉ ops) →
      (applyFormOps f ops).condition = f.condition := by
  induction ops with
  | nil => intro f _; rfl
  | cons op ops ih =>
    intro f h
    have hop : ∀ c, op ≠ FormOp.setCondition c := by
      intro c hc
      exact h c (hc ▸ List.mem_cons_self op ops)
    have htail : ∀ c, FormOp.setCondition c ∉ ops := by
      intro c hc
      exact h c (List.mem_cons_of_mem op hc)
    have hstep : (applyFormOp f op).condition = f.condition := by
      cases op with
      | setCondition c => exact absurd rfl (hop c)
      | addPhoto r =>
        simp only [applyFormOp]
        split
        · cases r <;> rfl
        · rfl
      | _ => rfl
    calc (applyFormOps f (op :: ops)).condition
        = (applyFormOps (applyFormOp f op) ops).condition := rfl
      _ = (applyFormOp f op).condition := ih _ htail
      _ = f.condition := hstep

/-- C5: the create handler requires a name; a numeric field of the created
item is 0 whenever its input does not parse as a number (the absent input ""
parses to none); and the condition of the created item is "good" whenever
the user never chose a condition on the form. -/
theorem create_defaults (f : AddItemForm) :
    jsParseFloat "" = none ∧
      (f.name = "" → handleCreateItem f = .error "Please enter item name") ∧
      (∀ p, handleCreateItem f = .ok p →
        (jsParseFloat f.purchasePrice = none → p.purchase_price = 0) ∧
          (jsParseFloat f.currentValue = none → p.current_value = 0)) ∧
      (∀ ops, (∀ c, FormOp.setCondition c ∉ ops) →
        ∀ p, handleCreateItem (applyFormOps initAddItemForm ops) = .ok p →
          p.condition = "good") := by
  refine ⟨by simp +decide [jsParseFloat, readDigitsAux], fun hn => ?_, fun p hp => ?_, ?_⟩
  · simp [handleCreateItem, hn]
  · unfold handleCreateItem at hp
    split at hp
    · cases hp
    · cases hp
      exact ⟨fun h => by simp [jsOrZero, h], fun h => by simp [jsOrZero, h]⟩
  · intro ops hops p hp
    unfold handleCreateItem at hp
    split at hp
    · cases hp
    · cases hp
      exact condition_unchanged_of_ops ops initAddItemForm hops

/-- Closed instance of the C5 theorem on a form whose price inputs are absent
and whose interaction sequence never picks a condition. -/
theorem create_defaults_witness :
    ({ initAddItemForm with name := "Chrono Trigger" } : AddItemForm).name = "Chrono Trigger" ∧
      (∀ p, handleCreateItem { initAddItemForm with name := "Chrono Trigger" } = .ok p →
        (jsParseFloat ({ initAddItemForm with name := "Chrono Trigger" } : AddItemForm).purchasePrice = none →
            p.purchase_price = 0) ∧
          (jsParseFloat ({ initAddItemForm with name := "Chrono Trigger" } : AddItemForm).currentValue = none →
            p.current_value = 0)) ∧
      (∀ p, handleCreateItem (applyFormOps initAddItemForm [FormOp.setName "Chrono Trigger"]) = .ok p →
        p.condition = "good") :=
  ⟨rfl, (create_defaults { initAddItemForm with name := "Chrono Trigger" }).2.2.1,
    (create_defaults initAddItemForm).2.2.2 [FormOp.setName "Chrono Trigger"]
      (by intro c hc; simp at hc)⟩

/-- Helper: filtering an enumeration on an index below the starting index
keeps every element. -/
theorem enumFrom_filter_keep (xs : List String) :
    ∀ n k, k < n →
      ((List.enumFrom n xs).filter fun p => p.1 != k).map Prod.snd = xs := by
  induction xs with
  | nil => intro n k _; rfl
  | cons x xs ih =>
    intro n k h
    have hne : (n != k) = true := by simp; omega
    simp [List.enumFrom, List.filter_cons, hne, ih (n + 1) k (Nat.lt_succ_of_lt h)]

/-- Helper: filtering an enumeration started at n on the index n + i removes
exactly the element at position i. -/
theorem enumFrom_filter_remove (xs : List String) :
    ∀ n k i, k = n + i → i < xs.length →
      ((List.enumFrom n xs).filter fun p => p.1 != k).map Prod.snd =
        xs.take i ++ xs.drop (i + 1) := by
  induction xs with
  | nil => intro n k i _ h; simp at h
  | cons x xs ih =>
    intro n k i hk h
    cases i with
    | zero =>
      have hkn : (n != k) = false := by simp; omega
      simp [List.enumFrom, List.filter_cons, hkn,
        enumFrom_filter_keep xs (n + 1) k (by omega)]
    | succ j =>
      have hne : (n != k) = true := by simp; omega
      have hj : j < xs.length := by simpa using Nat.lt_of_succ_lt_succ h
      simp [List.enumFrom, List.filter_cons, hne, ih (n + 1) k j (by omega) hj]

/-- Helper: removal by index never lengthens the list. -/
theorem removeAtIdx_length_le (l : List String) (i : Nat) :
    (removeAtIdx l i).length ≤ l.length := by
  simp only [removeAtIdx, List.length_map]
  exact le_trans (List.length_filter_le _ _) (by simp [List.enum_length])

/-- Helper: one form interaction preserves the five-image bound. -/
theorem images_bound_step (f : AddItemForm) (op : FormOp)
    (h : f.images.length ≤ 5) : (applyFormOp f op).images.length ≤ 5 := by
  cases op with
  | addPhoto r =>
    simp only [applyFormOp]
    split
    · cases r with
      | some b64 => simp; omega
      | none => exact h
    · exact h
  | removePhoto i => exact le_trans (removeAtIdx_length_le f.images i) h
  | _ => exact h

/-- Helper: the five-image bound is an invariant of whole interaction
sequences. -/
theorem images_bound_ops (ops : List FormOp) :
    ∀ f : AddItemForm, f.images.length ≤ 5 →
      (applyFormOps f ops).images.length ≤ 5 := by
  induction ops with
  | nil => intro f h; exact h
  | cons op ops ih => intro f h; exact ih _ (images_bound_step f op h)

/-- C6: starting from the empty image list, every sequence of add-photo
(camera or gallery) and remove-photo interactions keeps the image list at no
more than 5 entries, and remove-photo removes exactly the image at the given
index, preserving the order of the remaining images. -/
theorem addItem_images_invariant :
    (∀ ops, (applyFormOps initAddItemForm ops).images.length ≤ 5) ∧
      (∀ (l : List String) (i : Nat), i < l.length →
        removeAtIdx l i = l.take i ++ l.drop (i + 1)) := by
  constructor
  · intro ops
    exact images_bound_ops ops initAddItemForm (by simp [initAddItemForm])
  · intro l i h
    have := enumFrom_filter_remove l 0 i i (by omega) h
    simpa [removeAtIdx, List.enum] using this

/-- Closed instance of the C6 theorem: one added photo keeps the bound, and
removing index 1 from a three-image list drops exactly the middle image. -/
theorem addItem_images_invariant_witness :
    (applyFormOps initAddItemForm [FormOp.addPhoto (some "Zm9v")]).images.length ≤ 5 ∧
      removeAtIdx ["a", "b", "c"] 1 = ["a", "b", "c"].take 1 ++ ["a", "b", "c"].drop 2 :=
  ⟨addItem_images_invariant.1 [FormOp.addPhoto (some "Zm9v")],
    addItem_images_invariant.2 ["a", "b", "c"] 1 (by decide)⟩

/-! ### Add-collection form (frontend/app/collection/add.tsx) -/

/-- The JSON body posted to POST /collections. -/
structure CollectionPayload where
  name : String
  category : String
  description : String
deriving DecidableEq, Repr

/-- handleCreate of AddCollectionScreen: if (!name || !selectedCategory) an
alert is shown and no request is issued; otherwise the POST body holds
exactly the entered name, category and description. -/
def handleCreateCollection (name selectedCategory description : String) :
    Except String CollectionPayload :=
  if name = "" ∨ selectedCategory = "" then
    .error "Please fill in all required fields"
  else
    .ok { name := name, category := selectedCategory, description := description }

/-- Effect of the handler run on the stored collections: an issued request
appends the created record; a validation failure leaves the store
unchanged. -/
def applyCollectionCreate (store : List CollectionPayload) :
    Except String CollectionPayload → List CollectionPayload
  | .error _ => store
  | .ok r => store ++ [r]

/-- C7: a missing (empty) name or category fails validation and issues no
request, leaving the stored collections unchanged; with both present, the
issued request carries exactly the entered name, category and
description. -/
theorem collection_create_validation (name cat desc : String)
    (store : List CollectionPayload) :
    ((name = "" ∨ cat = "") →
        handleCreateCollection name cat desc =
            .error "Please fill in all required fields" ∧
          applyCollectionCreate store (handleCreateCollection name cat desc) = store) ∧
      (name ≠ "" → cat ≠ "" →
        handleCreateCollection name cat desc =
          .ok { name := name, category := cat, description := desc }) := by
  constructor
  · intro h
    have he : handleCreateCollection name cat desc =
        .error "Please fill in all required fields" := by
      unfold handleCreateCollection
      rw [if_pos h]
    exact ⟨he, by rw [he]; rfl⟩
  · intro h1 h2
    unfold handleCreateCollection
    rw [if_neg (not_or.mpr ⟨h1, h2⟩)]

/-- Closed instance of the C7 theorem at an empty name and at the example
collection of the specification. -/
theorem collection_create_validation_witness :
    (handleCreateCollection "" "video games" "" =
        .error "Please fill in all required fields" ∧
      applyCollectionCreate [] (handleCreateCollection "" "video games" "") = []) ∧
      handleCreateCollection "Retro Games" "video games" "" =
        .ok { name := "Retro Games", category := "video games", description := "" } :=
  ⟨(collection_create_validation "" "video games" "" []).1 (Or.inl rfl),
    (collection_create_validation "Retro Games" "video games" "" []).2
      (by decide) (by decide)⟩

/-! ### Error-message display (the catch blocks of the request handlers) -/

/-- The message surfaced to the user on a failed request:
error.response?.data?.detail || fallback.  The optional chain collapses to an
optional detail string; a present but empty detail string is falsy in
JavaScript and falls through to the fallback too. -/
def displayedError (detail : Option String) (fallback : String) : String :=
  match detail with
  | some d => if d = "" then fallback else d
  | none => fallback

/-- C8 counterexample: a response that carries an empty detail string is
displayed as the generic fallback, not as that detail — presence of the
field alone does not decide which message is shown. -/
theorem displayedError_empty_detail_counterexample :
    displayedError (some "") "Failed to create collection" =
        "Failed to create collection" ∧
      "Failed to create collection" ≠ "" := by
  exact ⟨rfl, by decide⟩

/-- C8 (amended): a present NON-EMPTY detail string is displayed verbatim;
an absent detail (and likewise an empty one) falls back to the generic
message. -/
theorem displayedError_characterisation (d fallback : String) (hd : d ≠ "") :
    displayedError (some d) fallback = d ∧
      displayedError none fallback = fallback :=
  ⟨by simp [displayedError, hd], rfl⟩

/-- Closed instance of the amended C8 theorem. -/
theorem displayedError_characterisation_witness :
    displayedError (some "Username already exists") "Invalid credentials" =
        "Username already exists" ∧
      displayedError none "Invalid credentials" = "Invalid credentials" :=
  displayedError_characterisation "Username already exists" "Invalid credentials"
    (by decide)

/-! ### Backend collection and item store

The backend (backend/server.py) is referenced by the repository test log but
is not among the sources; the store operations below are modelled from the
specification (sections 3, 4.2 and 4.3). -/

/-- Modelled from the spec: a stored Item record of the backend, following
the data model of section 3. -/
structure ItemRecord where
  id : String
  user_id : String
  collection_id : Option String
  name : String
  description : String
  images : List String
  barcode : Option String
  purchase_price : ℚ
  current_value : ℚ
  condition : String
  is_wishlist : Bool
  asking_price : Option ℚ
  created_at : String
deriving DecidableEq, Repr

/-- Modelled from the spec: a stored Collection record of the backend. -/
structure CollectionRecord where
  id : String
  user_id : String
  name : String
  category : String
  description : Option String
  created_at : String
deriving DecidableEq, Repr

/-- The persistent state of the backend store. -/
structure Store where
  collections : List CollectionRecord
  items : List ItemRecord
deriving Repr

/-- The error taxonomy relevant to the store claims. -/
inductive ApiError
  | notFound
deriving DecidableEq, Repr

/-- Modelled from the spec: delete(user, id) on collections — NotFound unless
a collection with this id is owned by the requesting user; on success the
collection is removed and the delete cascades, removing every Item whose
collection id equals this id. -/
def deleteCollection (user cid : String) (s : Store) : Except ApiError Store :=
  if s.collections.any fun c => decide (c.id = cid ∧ c.user_id = user) then
    .ok
      { collections := s.collections.filter fun c => !decide (c.id = cid ∧ c.user_id = user)
        items := s.items.filter fun it => !decide (it.collection_id = some cid) }
  else .error .notFound

/-- Modelled from the spec: listByCollection(user, collectionId) — the items
of the requesting user whose collection id equals the given id. -/
def listByCollection (user cid : String) (s : Store) : List ItemRecord :=
  s.items.filter fun it => decide (it.user_id = user ∧ it.collection_id = some cid)

/-- Modelled from the spec: get(user, id) on items — NotFound when no item
with this id is owned by the requesting user. -/
def getItem (user iid : String) (s : Store) : Except ApiError ItemRecord :=
  match s.items.find? fun it => decide (it.id = iid ∧ it.user_id = user) with
  | some it => .ok it
  | none => .error .notFound

/-- C2: when a delete of a collection succeeds, every item of that collection
is gone: listing by that collection returns the empty list and getting any of
those items returns NotFound.  Item ids are assumed unique in the store, as
the data model's identifiers are. -/
theorem delete_collection_cascades (user cid : String) (s s2 : Store)
    (hnd : (s.items.map ItemRecord.id).Nodup)
    (hdel : deleteCollection user cid s = .ok s2) :
    listByCollection user cid s2 = [] ∧
      ∀ it ∈ s.items, it.collection_id = some cid →
        getItem user it.id s2 = .error .notFound := by
  unfold deleteCollection at hdel
  split at hdel
  case isFalse => cases hdel
  case isTrue hc =>
    cases hdel
    constructor
    · apply List.filter_eq_nil_iff.mpr
      intro jt hjt
      have hmem := List.mem_filter.mp hjt
      have hne : jt.collection_id ≠ some cid := by
        have := hmem.2
        simpa using this
      simp [hne]
    · intro it hit hcid
      have hfind : (List.find?
          (fun jt => decide (jt.id = it.id ∧ jt.user_id = user))
          (s.items.filter fun jt => !decide (jt.collection_id = some cid))) = none := by
        apply List.find?_eq_none.mpr
        intro jt hjt
        have hmem := List.mem_filter.mp hjt
        have hne : jt.collection_id ≠ some cid := by
          have := hmem.2
          simpa using this
        intro hp
        have hpe : jt.id = it.id ∧ jt.user_id = user := by simpa using hp
        have heq : jt = it :=
          List.inj_on_of_nodup_map hnd hmem.1 hit hpe.1
        exact hne (heq ▸ hcid)
      simp only [getItem, hfind]

/-- The example collection of section 8 of the specification. -/
def retroGamesCollection : CollectionRecord :=
  { id := "c1", user_id := "u1", name := "Retro Games"
    category := "video games", description := none, created_at := "t0" }

/-- The example item of section 8 of the specification. -/
def chronoTriggerItem : ItemRecord :=
  { id := "i1", user_id := "u1", collection_id := some "c1"
    name := "Chrono Trigger", description := "", images := []
    barcode := none, purchase_price := 0, current_value := 150
    condition := "mint", is_wishlist := false, asking_price := none
    created_at := "t1" }

/-- A one-collection, one-item store for the C2 witness. -/
def exampleStore : Store :=
  { collections := [retroGamesCollection], items := [chronoTriggerItem] }

/-- The store after deleting the one collection. -/
def emptyStore : Store :=
  { collections := [], items := [] }

/-- Closed instance of the C2 theorem: deleting the one collection of the
example store empties the collection listing and makes the item NotFound. -/
theorem delete_collection_cascades_witness :
    listByCollection "u1" "c1" emptyStore = [] ∧
      ∀ it ∈ exampleStore.items, it.collection_id = some "c1" →
        getItem "u1" it.id emptyStore = .error .notFound :=
  delete_collection_cascades "u1" "c1" exampleStore emptyStore
    (by simp [exampleStore])
    (by simp +decide [deleteCollection, exampleStore, emptyStore,
      retroGamesCollection, chronoTriggerItem])

/-- Modelled from the spec: an update request body, carrying any subset of
the mutable item fields; an absent field must not be reset.  For the two item
fields that are themselves optional the request value is doubly optional,
none meaning "not supplied". -/
structure ItemUpdate where
  name : Option String := none
  description : Option String := none
  images : Option (List String) := none
  barcode : Option (Option String) := none
  purchase_price : Option ℚ := none
  current_value : Option ℚ := none
  condition : Option String := none
  is_wishlist : Option Bool := none
  asking_price : Option (Option ℚ) := none
  collection_id : Option (Option String) := none

/-- Modelled from the spec: update(user, id, fields) applies exactly the
supplied fields to the stored record and keeps every unspecified field. -/
def applyItemUpdate (it : ItemRecord) (u : ItemUpdate) : ItemRecord :=
  { it with
    name := u.name.getD it.name
    description := u.description.getD it.description
    images := u.images.getD it.images
    barcode := u.barcode.getD it.barcode
    purchase_price := u.purchase_price.getD it.purchase_price
    current_value := u.current_value.getD it.current_value
    condition := u.condition.getD it.condition
    is_wishlist := u.is_wishlist.getD it.is_wishlist
    asking_price := u.asking_price.getD it.asking_price
    collection_id := u.collection_id.getD it.collection_id }

/-- The request body the wishlist toggle sends: is_wishlist and nothing else
(toggleWishlist in frontend/app/item/id.tsx puts { is_wishlist: b }). -/
def wishlistOnlyUpdate (b : Bool) : ItemUpdate :=
  { is_wishlist := some b }

/-- C3: an update that supplies only is_wishlist changes only is_wishlist;
name, description, images, barcode, both prices, condition, asking_price,
collection_id and created_at (and the identifiers) are unchanged. -/
theorem wishlist_update_frame (it : ItemRecord) (b : Bool) :
    (applyItemUpdate it (wishlistOnlyUpdate b)).is_wishlist = b ∧
      (applyItemUpdate it (wishlistOnlyUpdate b)).id = it.id ∧
      (applyItemUpdate it (wishlistOnlyUpdate b)).user_id = it.user_id ∧
      (applyItemUpdate it (wishlistOnlyUpdate b)).name = it.name ∧
      (applyItemUpdate it (wishlistOnlyUpdate b)).description = it.description ∧
      (applyItemUpdate it (wishlistOnlyUpdate b)).images = it.images ∧
      (applyItemUpdate it (wishlistOnlyUpdate b)).barcode = it.barcode ∧
      (applyItemUpdate it (wishlistOnlyUpdate b)).purchase_price = it.purchase_price ∧
      (applyItemUpdate it (wishlistOnlyUpdate b)).current_value = it.current_value ∧
      (applyItemUpdate it (wishlistOnlyUpdate b)).condition = it.condition ∧
      (applyItemUpdate it (wishlistOnlyUpdate b)).asking_price = it.asking_price ∧
      (applyItemUpdate it (wishlistOnlyUpdate b)).collection_id = it.collection_id ∧
      (applyItemUpdate it (wishlistOnlyUpdate b)).created_at = it.created_at := by
  simp [applyItemUpdate, wishlistOnlyUpdate]

/-! ### JSON serialization of the stored user (frontend/store/authStore.ts)

setAuth persists the user via JSON.stringify and loadAuth revives it via
JSON.parse.  The two library functions are modelled character by character on
the shapes the store produces: object keys in property order id, username,
email (an undefined email is omitted by JSON.stringify), string values
escaped as ECMA-262 QuoteJSONString prescribes. -/

/-- Lowercase hexadecimal digit, as Number.prototype.toString(16) emits. -/
def hexDigitChar (n : Nat) : Char :=
  if n < 10 then Char.ofNat (48 + n) else Char.ofNat (87 + n)

/-- Value of one hexadecimal digit, as JSON.parse reads \-u escapes. -/
def hexVal (c : Char) : Option Nat :=
  if '0' ≤ c ∧ c ≤ '9' then some (c.toNat - 48)
  else if 'a' ≤ c ∧ c ≤ 'f' then some (c.toNat - 87)
  else if 'A' ≤ c ∧ c ≤ 'F' then some (c.toNat - 55)
  else none

/-- The single-character JSON string escapes accepted by JSON.parse. -/
def unescapeChar (e : Char) : Option Char :=
  if e = '"' then some '"'
  else if e = '\\' then some '\\'
  else if e = '/' then some '/'
  else if e = 'b' then some (Char.ofNat 8)
  else if e = 'f' then some (Char.ofNat 12)
  else if e = 'n' then some '\n'
  else if e = 'r' then some '\x0d'
  else if e = 't' then some '\t'
  else none

/-- JSON string-body parser: consumes characters up to an unescaped closing
quote, decoding backslash escapes, rejecting raw control characters and
unterminated strings; returns the decoded characters and the input after the
closing quote. -/
def parseStrAux : List Char → Option (List Char × List Char)
  | [] => none
  | '\\' :: 'u' :: h1 :: h2 :: h3 :: h4 :: rest =>
    match hexVal h1, hexVal h2, hexVal h3, hexVal h4 with
    | some a, some b, some c, some d =>
      (parseStrAux rest).map fun q =>
        (Char.ofNat (((a * 16 + b) * 16 + c) * 16 + d) :: q.1, q.2)
    | _, _, _, _ => none
  | '\\' :: e :: rest =>
    match unescapeChar e with
    | some ch => (parseStrAux rest).map fun q => (ch :: q.1, q.2)
    | none => none
  | c :: rest =>
    if c = '"' then some ([], rest)
    else if c.toNat < 32 then none
    else (parseStrAux rest).map fun q => (c :: q.1, q.2)

/-- One character as JSON.stringify escapes it inside a string literal:
quote and backslash get a backslash, the named control characters get their
short escapes, other control characters a four-digit \-u escape, everything
else passes through. -/
def escChar (c : Char) : List Char :=
  if c = '"' then ['\\', '"']
  else if c = '\\' then ['\\', '\\']
  else if c = Char.ofNat 8 then ['\\', 'b']
  else if c = Char.ofNat 12 then ['\\', 'f']
  else if c = '\n' then ['\\', 'n']
  else if c = '\x0d' then ['\\', 'r']
  else if c = '\t' then ['\\', 't']
  else if c.toNat < 32 then
    ['\\', 'u', '0', '0', hexDigitChar (c.toNat / 16), hexDigitChar (c.toNat % 16)]
  else [c]

/-- A whole string body as JSON.stringify escapes it. -/
def escList : List Char → List Char
  | [] => []
  | c :: cs => escChar c ++ escList cs

/-- Helper: a hexadecimal digit reads back to its value. -/
theorem hexVal_hexDigitChar (n : Nat) (h : n < 16) :
    hexVal (hexDigitChar n) = some n := by
  interval_cases n <;> decide

/-- Helper: the string-body parser inverts the escaper — parsing an escaped
body followed by the closing quote yields the original characters and the
remaining input. -/
theorem parseStrAux_escList (cs : List Char) :
    ∀ rest, parseStrAux (escList cs ++ '"' :: rest) = some (cs, rest) := by
  induction cs with
  | nil => intro rest; simp +decide [escList, parseStrAux]
  | cons c cs ih =>
    intro rest
    have htail := ih rest
    simp only [escList, List.append_assoc]
    by_cases h1 : c = '"'
    · subst h1; simp +decide [escChar, parseStrAux, unescapeChar, htail]
    · by_cases h2 : c = '\\'
      · subst h2; simp +decide [escChar, parseStrAux, unescapeChar, htail]
      · by_cases h3 : c = Char.ofNat 8
        · subst h3; simp +decide [escChar, parseStrAux, unescapeChar, htail]
        · by_cases h4 : c = Char.ofNat 12
          · subst h4; simp +decide [escChar, parseStrAux, unescapeChar, htail]
          · by_cases h5 : c = '\n'
            · subst h5; simp +decide [escChar, parseStrAux, unescapeChar, htail]
            · by_cases h6 : c = '\x0d'
              · subst h6; simp +decide [escChar, parseStrAux, unescapeChar, htail]
              · by_cases h7 : c = '\t'
                · subst h7
                  simp +decide [escChar, parseStrAux, unescapeChar, htail]
                · by_cases h8 : c.toNat < 32
                  · have hd : c.toNat / 16 < 16 := by omega
                    have hm : c.toNat % 16 < 16 := by omega
                    have h0 : hexVal '0' = some 0 := by decide
                    simp only [escChar, if_neg h1, if_neg h2, if_neg h3, if_neg h4,
                      if_neg h5, if_neg h6, if_neg h7, if_pos h8]
                    simp +decide [parseStrAux, h0, hexVal_hexDigitChar _ hd,
                      hexVal_hexDigitChar _ hm, htail,
                      show c.toNat / 16 * 16 + c.toNat % 16 = c.toNat from by omega,
                      Char.ofNat_toNat]
                  · simp only [escChar, if_neg h1, if_neg h2, if_neg h3, if_neg h4,
                      if_neg h5, if_neg h6, if_neg h7, if_neg h8]
                    simp [parseStrAux, h1, h2, h8, htail]

/-- The user record the auth store holds (interface User of authStore.ts);
email is optional and is undefined on the record the login screen builds. -/
structure AuthUser where
  id : String
  username : String
  email : Option String := none
deriving DecidableEq, Repr

/-- The two braces, kept as named characters. -/
def lbrace : Char := Char.ofNat 123

/-- Closing brace. -/
def rbrace : Char := Char.ofNat 125

/-- A quoted, escaped JSON string literal. -/
def jsonQuote (s : String) : List Char :=
  '"' :: (escList s.data ++ ['"'])

/-- Models JSON.stringify applied to the stored user object: keys in property
order id, username, email; an undefined email is omitted. -/
def stringifyUser (u : AuthUser) : String :=
  String.mk ([lbrace] ++ jsonQuote "id" ++ [':'] ++ jsonQuote u.id ++ [','] ++
    jsonQuote "username" ++ [':'] ++ jsonQuote u.username ++
    (match u.email with
      | none => []
      | some e => [','] ++ jsonQuote "email" ++ [':'] ++ jsonQuote e) ++ [rbrace])

/-- Consume one expected character. -/
def expectChar (c : Char) : List Char → Option (List Char)
  | [] => none
  | x :: rest => if x = c then some rest else none

/-- Consume one JSON string literal. -/
def parseJString : List Char → Option (List Char × List Char)
  | [] => none
  | x :: rest => if x = '"' then parseStrAux rest else none

/-- Models JSON.parse applied to the persisted user: accepts the object
shapes the serializer emits (id, username and an optional email, in that
order) and fails on everything else.  JSON.parse accepts more JSON than
this, but loadAuth only ever parses strings written by setAuth; a parse
failure models the exception the catch branch absorbs. -/
def parseUser (s : String) : Option AuthUser :=
  (expectChar lbrace s.data).bind fun l1 =>
  (parseJString l1).bind fun k1 =>
  if k1.1 ≠ "id".data then none else
  (expectChar ':' k1.2).bind fun l2 =>
  (parseJString l2).bind fun v1 =>
  (expectChar ',' v1.2).bind fun l3 =>
  (parseJString l3).bind fun k2 =>
  if k2.1 ≠ "username".data then none else
  (expectChar ':' k2.2).bind fun l4 =>
  (parseJString l4).bind fun v2 =>
  match v2.2 with
  | [] => none
  | x :: l5 =>
    if x = rbrace then
      if l5 = [] then
        some { id := String.mk v1.1, username := String.mk v2.1, email := none }
      else none
    else if x = ',' then
      (parseJString l5).bind fun k3 =>
      if k3.1 ≠ "email".data then none else
      (expectChar ':' k3.2).bind fun l6 =>
      (parseJString l6).bind fun v3 =>
      (expectChar rbrace v3.2).bind fun l7 =>
      if l7 = [] then
        some { id := String.mk v1.1, username := String.mk v2.1
               email := some (String.mk v3.1) }
      else none
    else none

/-- Helper: the stored user survives the stringify/parse round trip. -/
theorem parseUser_stringifyUser (u : AuthUser) :
    parseUser (stringifyUser u) = some u := by
  obtain ⟨uid, uname, uemail⟩ := u
  cases uemail with
  | none =>
    simp +decide [parseUser, stringifyUser, jsonQuote, expectChar, parseJString,
      lbrace, rbrace, parseStrAux, parseStrAux_escList, escList]
  | some e =>
    simp +decide [parseUser, stringifyUser, jsonQuote, expectChar, parseJString,
      lbrace, rbrace, parseStrAux, parseStrAux_escList, escList]

/-! ### Auth store (frontend/store/authStore.ts) -/

/-- The zustand state: token, user and the loading flag. -/
structure AuthState where
  token : Option String
  user : Option AuthUser
  isLoading : Bool
deriving DecidableEq, Repr

/-- The AsyncStorage contents under the keys "token" and "user". -/
structure AuthStorage where
  token : Option String
  user : Option String
deriving DecidableEq, Repr

/-- The initial store state: token null, user null, isLoading true. -/
def initialAuthState : AuthState :=
  { token := none, user := none, isLoading := true }

/-- setAuth persists the token under "token" and JSON.stringify(user) under
"user". -/
def setAuthStorage (t : String) (u : AuthUser) : AuthStorage :=
  { token := some t, user := some (stringifyUser u) }

/-- setAuth also sets token and user in the in-memory state. -/
def setAuthState (t : String) (u : AuthUser) (st : AuthState) : AuthState :=
  { st with token := some t, user := some u }

/-- logout removes both keys. -/
def logoutStorage : AuthStorage :=
  { token := none, user := none }

/-- logout clears token and user in the in-memory state. -/
def logoutState (st : AuthState) : AuthState :=
  { st with token := none, user := none }

/-- loadAuth: reads both keys (the read may fail, which the catch branch
absorbs); if both values are truthy — present AND non-empty, since an empty
string is falsy in JavaScript — it sets token, the parsed user and
isLoading false in one update; a parse exception falls to the catch branch;
every other path merely sets isLoading false. -/
def loadAuth (st : AuthState) (read : Except Unit AuthStorage) : AuthState :=
  match read with
  | .error _ => { st with isLoading := false }
  | .ok sto =>
    match sto.token, sto.user with
    | some t, some us =>
      if t = "" ∨ us = "" then { st with isLoading := false }
      else
        match parseUser us with
        | some u => { token := some t, user := some u, isLoading := false }
        | none => { st with isLoading := false }
    | _, _ => { st with isLoading := false }

/-- C10 counterexample: with the empty string as token, setAuth followed by a
fresh-state loadAuth does NOT restore the token — the truthiness check of
loadAuth treats the stored empty token as missing, so the state keeps token
null instead of the empty string. -/
theorem loadAuth_empty_token_counterexample :
    loadAuth initialAuthState
        (.ok (setAuthStorage "" { id := "1", username := "alice" })) =
      { token := none, user := none, isLoading := false } ∧
      (none : Option String) ≠ some "" := by
  constructor
  · rfl
  · simp

/-- C10 (amended): for every NON-EMPTY token string and every user record,
setAuth followed by a fresh-state loadAuth restores that token and an equal
user record (the user survives the JSON stringify/parse round trip); logout
followed by loadAuth leaves token and user null; and loadAuth ends with
isLoading false on every path, the read-error path included. -/
theorem authStore_roundtrip (t : String) (ht : t ≠ "") (u : AuthUser) :
    loadAuth initialAuthState (.ok (setAuthStorage t u)) =
        { token := some t, user := some u, isLoading := false } ∧
      loadAuth (logoutState initialAuthState) (.ok logoutStorage) =
        { token := none, user := none, isLoading := false } ∧
      (∀ (st : AuthState) (read : Except Unit AuthStorage),
        (loadAuth st read).isLoading = false) := by
  refine ⟨?_, rfl, ?_⟩
  · have hs : stringifyUser u ≠ "" := by
      simp [stringifyUser, String.ext_iff]
    simp [loadAuth, setAuthStorage, initialAuthState, ht, hs,
      parseUser_stringifyUser u]
  · intro st read
    cases read with
    | error e => rfl
    | ok sto =>
      obtain ⟨tok, use⟩ := sto
      cases tok <;> cases use <;> simp only [loadAuth] <;> try rfl
      split
      · rfl
      · split <;> rfl

/-- The user record of the login flow. -/
def aliceUser : AuthUser :=
  { id := "1", username := "alice" }

/-- Closed instance of the amended C10 theorem at a concrete token and the
login-screen user shape. -/
theorem authStore_roundtrip_witness :
    loadAuth initialAuthState (.ok (setAuthStorage "jwt-token" aliceUser)) =
        { token := some "jwt-token", user := some aliceUser, isLoading := false } ∧
      loadAuth (logoutState initialAuthState) (.ok logoutStorage) =
        { token := none, user := none, isLoading := false } ∧
      (∀ (st : AuthState) (read : Except Unit AuthStorage),
        (loadAuth st read).isLoading = false) :=
  authStore_roundtrip "jwt-token" (by decide) aliceUser

end CollectorsApp
